import Mathlib

/-!
Shallow embedding of the document-analysis pipeline in `src/main.py`
(pattern extractor, aggregator, narrative generator, type classifier,
quality assessor), together with proofs about its specified behaviour.

Python regexes are embedded as explicit left-to-right scanners over the
character list (ASCII semantics for `\w`, `\d`, `\s`), Python `float`
scores as exact rationals, and Python dicts as structures.
-/

/-- Python `\w` on ASCII text: letters, digits and underscore. -/
def isWordChar (c : Char) : Bool := c.isAlphanum || c == '_'

/-- Python `\s` on ASCII text. -/
def isPySpace (c : Char) : Bool :=
  c == ' ' || c == '\t' || c == '\n' || c == '\r' || c == '\x0b' || c == '\x0c'

/-- Is the character at position `k` of `l` absent or a non-word character
(the condition for `\b` right after `k` consumed characters, when the last
consumed character is a word character)? -/
def nonWordAt (l : List Char) (k : Nat) : Bool :=
  match l.get? k with
  | none => true
  | some c => !isWordChar c

/-- Word-character status of the last character of a match (`m` is never
empty when this is used). -/
def lastWordChar (m : List Char) : Bool :=
  match m.getLast? with
  | none => false
  | some c => isWordChar c

/-- Driver for `re.findall`: scan left to right; `step prevW c rest` returns
`some (m, k)` when a match `m` starts at the current character `c` and
consumes `k` further characters of `rest`; on `none` the scan advances one
character.  `prevW` records whether the previous character is a word
character (for `\b`).  Fuel is consumed one unit per step, so fuel equal to
the list length always suffices. -/
def scanAux (step : Bool → Char → List Char → Option (List Char × Nat)) :
    Nat → Bool → List Char → List (List Char)
  | 0, _, _ => []
  | _ + 1, _, [] => []
  | fuel + 1, prevW, c :: rest =>
    match step prevW c rest with
    | some (m, k) => m :: scanAux step fuel (lastWordChar m) (rest.drop k)
    | none => scanAux step fuel (isWordChar c) rest

/-- One attempted match of `\b\d{10,}\b` at the current position. -/
def appStep (prevW : Bool) (c : Char) (rest : List Char) : Option (List Char × Nat) :=
  if prevW = false ∧ c.isDigit = true
      ∧ 10 ≤ (rest.takeWhile Char.isDigit).length + 1
      ∧ nonWordAt rest (rest.takeWhile Char.isDigit).length = true then
    some (c :: rest.takeWhile Char.isDigit, (rest.takeWhile Char.isDigit).length)
  else none

/-- One group `\d{1,3}\.` of the IP pattern: returns consumed characters
(including the dot) and the remainder. -/
def ipGroup (l : List Char) : Option (List Char × List Char) :=
  let ds := l.takeWhile Char.isDigit
  if 1 ≤ ds.length ∧ ds.length ≤ 3 then
    match l.drop ds.length with
    | '.' :: rest => some (ds ++ ['.'], rest)
    | _ => none
  else none

/-- Final group `\d{1,3}\b` of the IP pattern. -/
def ipFinal (l : List Char) : Option (List Char) :=
  let ds := l.takeWhile Char.isDigit
  if 1 ≤ ds.length ∧ ds.length ≤ 3 ∧ nonWordAt l ds.length = true then
    some ds
  else none

/-- One attempted match of `\b(?:\d{1,3}\.){3}\d{1,3}\b`. -/
def ipStep (prevW : Bool) (c : Char) (rest : List Char) : Option (List Char × Nat) :=
  if prevW = false ∧ c.isDigit = true then
    match ipGroup (c :: rest) with
    | none => none
    | some (g1, r1) =>
      match ipGroup r1 with
      | none => none
      | some (g2, r2) =>
        match ipGroup r2 with
        | none => none
        | some (g3, r3) =>
          match ipFinal r3 with
          | none => none
          | some g4 =>
            some (g1 ++ g2 ++ g3 ++ g4, (g1 ++ g2 ++ g3 ++ g4).length - 1)
  else none

/-- Is the character at position `k` of `l` a digit? -/
def digitAt (l : List Char) (k : Nat) : Bool :=
  match l.get? k with
  | none => false
  | some c => c.isDigit

/-- Is the character at position `k` of `l` equal to `ch`? -/
def charAt (l : List Char) (k : Nat) (ch : Char) : Bool :=
  match l.get? k with
  | none => false
  | some c => c == ch

/-- One attempted match of `\b\d{4}-\d{2}-\d{2}\b|\b\d{2}-\d{2}-\d{4}\b`. -/
def dateStep (prevW : Bool) (c : Char) (rest : List Char) : Option (List Char × Nat) :=
  if prevW = false ∧ c.isDigit = true then
    let l := c :: rest
    if digitAt l 0 ∧ digitAt l 1 ∧ digitAt l 2 ∧ digitAt l 3 ∧ charAt l 4 '-'
        ∧ digitAt l 5 ∧ digitAt l 6 ∧ charAt l 7 '-' ∧ digitAt l 8 ∧ digitAt l 9
        ∧ nonWordAt l 10 = true then
      some (l.take 10, 9)
    else if digitAt l 0 ∧ digitAt l 1 ∧ charAt l 2 '-' ∧ digitAt l 3 ∧ digitAt l 4
        ∧ charAt l 5 '-' ∧ digitAt l 6 ∧ digitAt l 7 ∧ digitAt l 8 ∧ digitAt l 9
        ∧ nonWordAt l 10 = true then
      some (l.take 10, 9)
    else none
  else none

/-- One attempted match of `\b\d{2}:\d{2}(?::\d{2})?\b` (the optional
seconds group is greedy, falling back to the short form when the trailing
`\b` fails). -/
def timeStep (prevW : Bool) (c : Char) (rest : List Char) : Option (List Char × Nat) :=
  if prevW = false ∧ c.isDigit = true then
    let l := c :: rest
    if digitAt l 0 ∧ digitAt l 1 ∧ charAt l 2 ':' ∧ digitAt l 3 ∧ digitAt l 4 then
      if charAt l 5 ':' ∧ digitAt l 6 ∧ digitAt l 7 ∧ nonWordAt l 8 = true then
        some (l.take 8, 7)
      else if nonWordAt l 5 = true then
        some (l.take 5, 4)
      else none
    else none
  else none

/-- `\b` test after consuming `k` characters of `rest` (used by the
uppercase-phrase pattern, whose last consumed character may be a space). -/
def upBoundary (rest : List Char) (k : Nat) : Bool :=
  let prevIsW : Bool :=
    match rest.get? (k - 1) with
    | none => false
    | some c => isWordChar c
  let nextIsW : Bool :=
    match rest.get? k with
    | none => false
    | some c => isWordChar c
  prevIsW != nextIsW

/-- Greedy backtracking for `[A-Z\s]{4,}\b`: the largest `k` between 4 and
the given bound at which the trailing `\b` holds. -/
def upBack (rest : List Char) : Nat → Option Nat
  | 0 => none
  | k + 1 =>
    if k + 1 < 4 then none
    else if upBoundary rest (k + 1) then some (k + 1)
    else upBack rest k

/-- One attempted match of `\b[A-Z][A-Z\s]{4,}\b`. -/
def upStep (prevW : Bool) (c : Char) (rest : List Char) : Option (List Char × Nat) :=
  if prevW = false ∧ c.isUpper = true then
    let r := rest.takeWhile (fun x => x.isUpper || isPySpace x)
    match upBack rest r.length with
    | some k => some (c :: r.take k, k)
    | none => none
  else none

/-- `re.findall` for one of the patterns above. -/
def pyFindall (step : Bool → Char → List Char → Option (List Char × Nat))
    (s : String) : List String :=
  (scanAux step s.toList.length false s.toList).map String.mk

/-- The per-page extraction record built by `analyze_text`. -/
structure ExtractionResult where
  application_numbers : List String
  ip_addresses : List String
  dates : List String
  times : List String
deriving DecidableEq

/-- `analyze_text` from the source: four `re.findall` calls. -/
def analyze_text (text : String) : ExtractionResult :=
  { application_numbers := pyFindall appStep text
    ip_addresses := pyFindall ipStep text
    dates := pyFindall dateStep text
    times := pyFindall timeStep text }

/-- The uppercase-phrase extraction `re.findall(r"\b[A-Z][A-Z\s]{4,}\b", ...)`
applied inside `summarize_analysis`. -/
def upperPhrases (text : String) : List String := pyFindall upStep text

/-- One page record of the analysis list built by the upload handler. -/
structure PageRecord where
  page : Nat
  text_layer_present : Bool
  ocr_status : String
  combined_text : String
  details : ExtractionResult
deriving DecidableEq

/-- Page record as the pipeline builds it: details come from `analyze_text`
on the combined text. -/
def mkPage (idx : Nat) (t : String) (hasLayer : Bool) (status : String) : PageRecord :=
  ⟨idx, hasLayer, status, t, analyze_text t⟩

/-- The document-wide summary dict built by `summarize_analysis`. -/
structure DocumentSummary where
  pages_scanned : Nat
  text_layer_pages : List Nat
  ocr_success_pages : List Nat
  unique_application_like_numbers : List String
  unique_dates : List String
  unique_times : List String
  unique_ip_addresses : List String
  unique_uppercase_phrases : List String
deriving DecidableEq

/-- Python `sorted(set(...))`: distinct elements in ascending order. -/
def sortedUnique (l : List String) : List String :=
  List.insertionSort (· ≤ ·) l.dedup

/-- `summarize_analysis` from the source: page-index lists in input order,
set accumulation across pages, sets rendered as sorted lists. -/
def summarize_analysis (analysis : List PageRecord) : DocumentSummary :=
  { pages_scanned := analysis.length
    text_layer_pages := (analysis.filter (fun p => p.text_layer_present)).map (fun p => p.page)
    ocr_success_pages := (analysis.filter (fun p => p.ocr_status == "success")).map (fun p => p.page)
    unique_application_like_numbers :=
      sortedUnique (analysis.flatMap (fun p => p.details.application_numbers))
    unique_dates := sortedUnique (analysis.flatMap (fun p => p.details.dates))
    unique_times := sortedUnique (analysis.flatMap (fun p => p.details.times))
    unique_ip_addresses := sortedUnique (analysis.flatMap (fun p => p.details.ip_addresses))
    unique_uppercase_phrases :=
      sortedUnique (analysis.flatMap (fun p => upperPhrases p.combined_text)) }

/-- Python `sep.join(lines)`. -/
def strJoin (sep : String) : List String → String
  | [] => ""
  | x :: xs => xs.foldl (fun acc y => acc ++ sep ++ y) x

/-- Python `f"...{lst}..."` rendering of a list of ints. -/
def pyNatList (l : List Nat) : String :=
  "[" ++ strJoin ", " (l.map toString) ++ "]"

/-- The unconditional first chunk of `generate_paragraph_summary` (page
count and text-layer pages, emitted even when the latter list is empty). -/
def firstChunk (s : DocumentSummary) : String :=
  "The document contains " ++ toString s.pages_scanned
    ++ " page(s). Text content was detected on pages "
    ++ pyNatList s.text_layer_pages ++ "."

/-- The `lines` list accumulated by `generate_paragraph_summary`: the first
chunk unconditionally, then one sentence per populated category. -/
def linesOf (s : DocumentSummary) : List String :=
  firstChunk s
  :: ((if s.ocr_success_pages ≠ [] then
        ["Optical character recognition (OCR) successfully processed pages "
          ++ pyNatList s.ocr_success_pages ++ "."]
      else [])
  ++ (if s.unique_application_like_numbers ≠ [] then
        ["The document includes " ++ toString s.unique_application_like_numbers.length
          ++ " long numeric identifier(s), suggesting reference or ID-like values."]
      else [])
  ++ (if s.unique_dates ≠ [] then
        ["Date values such as " ++ strJoin ", " (s.unique_dates.take 3)
          ++ " were detected."]
      else [])
  ++ (if s.unique_times ≠ [] then
        ["Time values such as " ++ strJoin ", " (s.unique_times.take 3)
          ++ " appear in the document."]
      else [])
  ++ (if s.unique_ip_addresses ≠ [] then
        ["One or more IP address values were detected, indicating system-generated metadata."]
      else [])
  ++ (if s.unique_uppercase_phrases ≠ [] then
        ["Prominent uppercase text blocks were identified, including "
          ++ strJoin ", " (s.unique_uppercase_phrases.take 4)
          ++ ", which may represent headings, organizations, or names."]
      else []))

/-- `generate_paragraph_summary` from the source: `" ".join(lines)`. -/
def generate_paragraph_summary (s : DocumentSummary) : String :=
  strJoin " " (linesOf s)

/-- The fixed category table, in the insertion order of the `scores` dict. -/
inductive DocCat where
  | application_form
  | invoice_or_payment
  | government_notice
  | identity_document
  | educational_record
deriving DecidableEq

/-- Category keys in dict insertion order. -/
def catOrder : List DocCat :=
  [DocCat.application_form, DocCat.invoice_or_payment, DocCat.government_notice,
   DocCat.identity_document, DocCat.educational_record]

/-- Dict key string of a category. -/
def catName : DocCat → String
  | DocCat.application_form => "application_form"
  | DocCat.invoice_or_payment => "invoice_or_payment"
  | DocCat.government_notice => "government_notice"
  | DocCat.identity_document => "identity_document"
  | DocCat.educational_record => "educational_record"

/-- Python substring test `pat in hay`, starting-position helper. -/
def strStarts : List Char → List Char → Bool
  | [], _ => true
  | _ :: _, [] => false
  | p :: ps, h :: hs => p == h && strStarts ps hs

/-- Python substring test `pat in hay` over character lists. -/
def subLC (pat : List Char) : List Char → Bool
  | [] => pat.isEmpty
  | c :: rest => strStarts pat (c :: rest) || subLC pat rest

/-- Python `pat in hay` on strings (case-sensitive substring). -/
def strIn (pat : String) (hay : String) : Bool := subLC pat.toList hay.toList

/-- Invoice/payment page signal: `"Amount" in text or "Payment" in text`. -/
def invoiceHit (p : PageRecord) : Bool :=
  strIn "Amount" p.combined_text || strIn "Payment" p.combined_text

/-- Educational page signal: `"Marks" in text or "Examination" in text`. -/
def eduHit (p : PageRecord) : Bool :=
  strIn "Marks" p.combined_text || strIn "Examination" p.combined_text

/-- Identity page signal: `"Aadhaar" in text or "Passport" in text`. -/
def idHit (p : PageRecord) : Bool :=
  strIn "Aadhaar" p.combined_text || strIn "Passport" p.combined_text

/-- Application-form phrase signal. -/
def appPhraseHit (ph : String) : Bool :=
  strIn "APPLICATION" ph || strIn "CONFIRMATION" ph

/-- Government-notice phrase signal. -/
def govPhraseHit (ph : String) : Bool :=
  strIn "GOVERNMENT" ph || strIn "MINISTRY" ph

/-- The score each category accumulates in `detect_document_type`. -/
def scoreOf (s : DocumentSummary) (a : List PageRecord) : DocCat → Nat
  | DocCat.application_form =>
      (if s.unique_application_like_numbers.isEmpty then 0 else 2)
        + 2 * List.countP appPhraseHit s.unique_uppercase_phrases
  | DocCat.invoice_or_payment => 2 * List.countP invoiceHit a
  | DocCat.government_notice => 2 * List.countP govPhraseHit s.unique_uppercase_phrases
  | DocCat.identity_document => 2 * List.countP idHit a
  | DocCat.educational_record => List.countP eduHit a

/-- The reason list each category accumulates (one string per hit, no
de-duplication). -/
def reasonsOf (s : DocumentSummary) (a : List PageRecord) : DocCat → List String
  | DocCat.application_form =>
      (if s.unique_application_like_numbers.isEmpty then []
       else ["Contains long numeric identifiers"])
        ++ (s.unique_uppercase_phrases.filter appPhraseHit).map
            (fun _ => "Contains application-related headings")
  | DocCat.invoice_or_payment =>
      (a.filter invoiceHit).map (fun _ => "Payment-related keywords found")
  | DocCat.government_notice =>
      (s.unique_uppercase_phrases.filter govPhraseHit).map
        (fun _ => "Government-related entities found")
  | DocCat.identity_document =>
      (a.filter idHit).map (fun _ => "Identity-related keywords found")
  | DocCat.educational_record =>
      (a.filter eduHit).map (fun _ => "Education-related terms found")

/-- Python `max(scores, key=scores.get)`: first key attaining the maximum,
in dict insertion order (replacement only on strictly greater value). -/
def pickBest (f : DocCat → Nat) : DocCat :=
  List.foldl (fun b c => if f b < f c then c else b) DocCat.application_form
    [DocCat.invoice_or_payment, DocCat.government_notice,
     DocCat.identity_document, DocCat.educational_record]

/-- The winning category of `detect_document_type`. -/
def best_type (s : DocumentSummary) (a : List PageRecord) : DocCat :=
  pickBest (scoreOf s a)

/-- The classification record returned by `detect_document_type`. -/
structure ClassificationResult where
  document_type : String
  confidence : ℚ
  reasoning : List String
deriving DecidableEq

/-- Python `round` to the nearest integer: round-half-to-even. -/
def ratRoundHalfEven (x : ℚ) : ℤ :=
  if x - (x.floor : ℚ) < 1/2 then x.floor
  else if 1/2 < x - (x.floor : ℚ) then x.floor + 1
  else if x.floor % 2 = 0 then x.floor else x.floor + 1

/-- Python `round(x, 2)`. -/
def round2 (x : ℚ) : ℚ := ((ratRoundHalfEven (x * 100) : ℤ) : ℚ) / 100

/-- `detect_document_type` from the source. -/
def detect_document_type (s : DocumentSummary) (a : List PageRecord) :
    ClassificationResult :=
  if scoreOf s a (best_type s a) = 0 then
    { document_type := "unknown", confidence := 0,
      reasoning := ["No strong signals detected"] }
  else
    { document_type := catName (best_type s a)
      confidence := round2 (min 1.0 ((scoreOf s a (best_type s a) : ℚ) / 5))
      reasoning := reasonsOf s a (best_type s a) }

/-- The quality record returned by `assess_document_quality`. -/
structure QualityAssessment where
  ocr_quality : String
  text_noise : String
  numeric_density : String
  overall_confidence : ℚ
  recommended_action : String
  reasoning : List String
deriving DecidableEq

/-- OCR-quality tier of `assess_document_quality`. -/
def ocrQualityOf (ratio : ℚ) : String :=
  if ratio > 0.8 then "high" else if ratio > 0.4 then "medium" else "low"

/-- OCR-quality reason string. -/
def ocrReasonOf (ratio : ℚ) : String :=
  if ratio > 0.8 then "OCR succeeded on most pages"
  else if ratio > 0.4 then "OCR partially succeeded"
  else "OCR failed on many pages"

/-- Text-noise tier from the unique-uppercase-phrase count. -/
def noiseOf (uc : Nat) : String :=
  if uc > 40 then "high" else if uc > 15 then "medium" else "low"

/-- Text-noise reason string. -/
def noiseReasonOf (uc : Nat) : String :=
  if uc > 40 then "High amount of OCR noise detected"
  else if uc > 15 then "Moderate OCR noise detected"
  else "Low OCR noise"

/-- Numeric-density tier from unique numbers plus unique dates. -/
def densityOf (nc : Nat) : String :=
  if nc > 6 then "high" else if nc > 2 then "medium" else "low"

/-- Numeric-density reason string. -/
def densityReasonOf (nc : Nat) : String :=
  if nc > 6 then "Document contains many structured numeric values"
  else if nc > 2 then "Some structured numeric values detected"
  else "Few structured numeric values detected"

/-- `assess_document_quality` from the source (the `analysis` argument is
accepted but unused, as in the source). -/
def assess_document_quality (s : DocumentSummary) (_analysis : List PageRecord) :
    QualityAssessment :=
  let total := s.pages_scanned
  let ratio : ℚ := if total ≠ 0 then (s.ocr_success_pages.length : ℚ) / total else 0
  let oq := ocrQualityOf ratio
  let tn := noiseOf s.unique_uppercase_phrases.length
  let nd := densityOf (s.unique_application_like_numbers.length + s.unique_dates.length)
  let score : ℚ :=
    (if oq = "high" then 0.4 else if oq = "medium" then 0.25 else 0.1)
    + (if nd = "high" then 0.3 else if nd = "medium" then 0.2 else 0.1)
    + (if tn = "low" then 0.2 else 0.1)
    + (if s.text_layer_pages.length = total then 0.1 else 0.05)
  let score2 := round2 (min score 1)
  { ocr_quality := oq
    text_noise := tn
    numeric_density := nd
    overall_confidence := score2
    recommended_action :=
      if score2 ≥ 0.75 then "auto_process"
      else if score2 ≥ 0.5 then "manual_review_recommended"
      else "manual_review_required"
    reasoning := [ocrReasonOf ratio, noiseReasonOf s.unique_uppercase_phrases.length,
      densityReasonOf (s.unique_application_like_numbers.length + s.unique_dates.length)] }


/-- Three OCR-success pages with no text layer and empty text (claim C1). -/
def c1pages : List PageRecord :=
  [mkPage 1 "" false "success", mkPage 2 "" false "success", mkPage 3 "" false "success"]

/-- Three OCR-success pages that do have a text layer (amended claim C1). -/
def c1bpages : List PageRecord :=
  [mkPage 1 "hello" true "success", mkPage 2 "hello" true "success",
   mkPage 3 "hello" true "success"]

/-- One page whose text contains "invoice", "payment" and "tax invoice" in
lowercase (claim C2). -/
def c2page : PageRecord := mkPage 1 "invoice payment tax invoice" true "skipped"

/-- One page whose text contains the case-sensitive keyword "Payment"
(amended claim C2). -/
def c2bpage : PageRecord := mkPage 1 "Payment of tax invoice due" true "skipped"

/-- Two pages each containing "Payment" (claim C5). -/
def c5pages : List PageRecord :=
  [mkPage 1 "Payment due" true "skipped", mkPage 2 "Payment received" true "skipped"]

/-- A single page containing "Payment" (amended claim C5). -/
def payPage : PageRecord := mkPage 1 "Payment" true "skipped"

/-- A summary with no pages and every field empty. -/
def emptySummary : DocumentSummary := ⟨0, [], [], [], [], [], [], []⟩

/-- A summary with one page scanned and every list empty. -/
def oneSummary : DocumentSummary := ⟨1, [], [], [], [], [], [], []⟩

/-- A summary with two pages, one text-layer page and no other signals. -/
def w4summary : DocumentSummary := ⟨2, [1], [], [], [], [], [], []⟩

/-- A page with no classification signals at all. -/
def w6page : PageRecord := mkPage 1 "nothing special here" true "skipped"


/-- Does the character list contain a window of 10 consecutive digits
(equivalently, a digit run of length at least 10)? -/
def hasDigitRun10 (l : List Char) : Bool :=
  l.tails.any (fun s => ((s.take 10).length == 10) && (s.take 10).all Char.isDigit)

/-- All maximal runs of consecutive digits of a character list. -/
def maximalDigitRunsAux : Nat → List Char → List (List Char)
  | 0, _ => []
  | _ + 1, [] => []
  | fuel + 1, c :: rest =>
    if c.isDigit then
      (c :: rest.takeWhile Char.isDigit)
        :: maximalDigitRunsAux fuel (rest.dropWhile Char.isDigit)
    else maximalDigitRunsAux fuel rest

/-- The claim's reading of the extractor output: all maximal runs of 10 or
more consecutive digits, with no word-boundary side condition. -/
def claimedMaximalDigitRuns (t : String) : List String :=
  ((maximalDigitRunsAux t.toList.length t.toList).filter
    (fun r => 10 ≤ r.length)).map String.mk

/-- Claim C9: on the text "ID 1234567890 dated 2024-01-05 at 10:30:00 from
10.0.0.1" the pattern extractor returns exactly one application number
"1234567890", one date "2024-01-05", one time "10:30:00" and one IP address
"10.0.0.1". -/
theorem claim9_theorem :
    analyze_text "ID 1234567890 dated 2024-01-05 at 10:30:00 from 10.0.0.1"
      = ⟨["1234567890"], ["10.0.0.1"], ["2024-01-05"], ["10:30:00"]⟩ := by decide

/-- Claim C1, counterexample: for 3 pages all with `ocr_status = "success"`
and 0 unique uppercase phrases (but no text layer), the quality assessor
returns overall confidence 0.75, not the claimed 0.8: the score is not
baseline 0.5 plus a single OCR bonus, but a sum of four tier contributions,
one of which depends on the text-layer pages. -/
theorem claim1_counterexample :
    (assess_document_quality (summarize_analysis c1pages) c1pages).overall_confidence = 0.75
    ∧ (assess_document_quality (summarize_analysis c1pages) c1pages).overall_confidence ≠ 0.8 := by
  with_unfolding_all decide

/-- Claim C1, amended: the quality score is the sum of four tier
contributions (OCR quality, numeric density, text noise, text-layer
completeness), the first three each contributing one reason string; for 3
pages all with `ocr_status = "success"`, 0 unique uppercase phrases, no
numeric values, and a text layer on every page, the result is overall
confidence 0.8 = 0.4 + 0.1 + 0.2 + 0.1 and action `auto_process`. -/
theorem claim1_theorem :
    (assess_document_quality (summarize_analysis c1bpages) c1bpages).overall_confidence = 0.8
    ∧ (assess_document_quality (summarize_analysis c1bpages) c1bpages).recommended_action
        = "auto_process"
    ∧ (assess_document_quality (summarize_analysis c1bpages) c1bpages).reasoning
        = ["OCR succeeded on most pages", "Low OCR noise",
           "Few structured numeric values detected"] := by
  with_unfolding_all decide

/-- Claim C2, counterexample: a document whose full text contains
"invoice", "payment" and "tax invoice" (lowercase, as written) and no
application-like numbers classifies as `unknown` with confidence 0.0, not
as `invoice_or_payment` with score 3 and confidence 0.6: keyword matching
is case-sensitive on "Amount"/"Payment" only, not case-normalized. -/
theorem claim2_counterexample :
    detect_document_type (summarize_analysis [c2page]) [c2page]
      = ⟨"unknown", 0, ["No strong signals detected"]⟩
    ∧ (detect_document_type (summarize_analysis [c2page]) [c2page]).document_type
        ≠ "invoice_or_payment" := by
  with_unfolding_all decide

/-- Claim C2, amended: the classifier adds 2 (not 1) per page whose
combined text contains the case-sensitive substring "Amount" or "Payment";
a one-page document containing "Payment" and no other signal classifies as
`invoice_or_payment` with score 2 and confidence 2/5 = 0.4. -/
theorem claim2_theorem :
    detect_document_type (summarize_analysis [c2bpage]) [c2bpage]
      = ⟨"invoice_or_payment", 0.4, ["Payment-related keywords found"]⟩
    ∧ scoreOf (summarize_analysis [c2bpage]) [c2bpage] DocCat.invoice_or_payment = 2 := by
  with_unfolding_all decide

/-- Claim C5, counterexample: for two pages each containing "Payment" the
reasoning list of the classifier contains the same reason string twice, so
reasons are not de-duplicated before return. -/
theorem claim5_counterexample :
    (detect_document_type (summarize_analysis c5pages) c5pages).reasoning
      = ["Payment-related keywords found", "Payment-related keywords found"]
    ∧ ¬ (detect_document_type (summarize_analysis c5pages) c5pages).reasoning.Nodup := by
  with_unfolding_all decide

/-- Claim C3, counterexample: the text "A1234567890" contains a maximal run
of exactly 10 consecutive digits, yet `application_numbers` is empty,
because the `\b` boundary of the regex rejects a run preceded by a word
character. -/
theorem claim3_counterexample :
    (analyze_text "A1234567890").application_numbers = []
    ∧ claimedMaximalDigitRuns "A1234567890" = ["1234567890"] := by decide

/-- Claim C4, counterexample: on a summary with every field empty the
narrative still contains the text-layer sentence with an empty list
rendering, so the text-layer category is not omitted when its data is
empty. -/
theorem claim4_counterexample :
    emptySummary.text_layer_pages = []
    ∧ generate_paragraph_summary emptySummary
      = "The document contains 0 page(s). Text content was detected on pages []." := by
  decide

/-- `sortedUnique` always yields a duplicate-free list. -/
theorem sortedUnique_nodup (l : List String) : (sortedUnique l).Nodup :=
  ((List.perm_insertionSort _ _).nodup_iff).mpr l.nodup_dedup

/-- `sortedUnique` always yields an ascending list. -/
theorem sortedUnique_sorted (l : List String) : List.Sorted (· ≤ ·) (sortedUnique l) :=
  List.sorted_insertionSort _ _

/-- Claim C8: every `unique_*` field of the summary is duplicate-free and
sorted in ascending lexicographic string order, for every input page
list. -/
theorem claim8_theorem (analysis : List PageRecord) :
    ((summarize_analysis analysis).unique_application_like_numbers.Nodup
      ∧ List.Sorted (· ≤ ·) (summarize_analysis analysis).unique_application_like_numbers)
    ∧ ((summarize_analysis analysis).unique_dates.Nodup
      ∧ List.Sorted (· ≤ ·) (summarize_analysis analysis).unique_dates)
    ∧ ((summarize_analysis analysis).unique_times.Nodup
      ∧ List.Sorted (· ≤ ·) (summarize_analysis analysis).unique_times)
    ∧ ((summarize_analysis analysis).unique_ip_addresses.Nodup
      ∧ List.Sorted (· ≤ ·) (summarize_analysis analysis).unique_ip_addresses)
    ∧ ((summarize_analysis analysis).unique_uppercase_phrases.Nodup
      ∧ List.Sorted (· ≤ ·) (summarize_analysis analysis).unique_uppercase_phrases) :=
  ⟨⟨sortedUnique_nodup _, sortedUnique_sorted _⟩,
   ⟨sortedUnique_nodup _, sortedUnique_sorted _⟩,
   ⟨sortedUnique_nodup _, sortedUnique_sorted _⟩,
   ⟨sortedUnique_nodup _, sortedUnique_sorted _⟩,
   ⟨sortedUnique_nodup _, sortedUnique_sorted _⟩⟩

/-- Claim C6: when every category score is 0, the classifier returns
document type "unknown", confidence 0.0 and the fixed no-signals reason. -/
theorem claim6_theorem (s : DocumentSummary) (a : List PageRecord)
    (h1 : scoreOf s a DocCat.application_form = 0)
    (h2 : scoreOf s a DocCat.invoice_or_payment = 0)
    (h3 : scoreOf s a DocCat.government_notice = 0)
    (h4 : scoreOf s a DocCat.identity_document = 0)
    (h5 : scoreOf s a DocCat.educational_record = 0) :
    detect_document_type s a = ⟨"unknown", 0, ["No strong signals detected"]⟩ := by
  have hb : scoreOf s a (best_type s a) = 0 := by
    cases hbt : best_type s a <;> assumption
  simp [detect_document_type, hb]

/-- Witness for claim C6 at a concrete signal-free input. -/
theorem claim6_witness :
    detect_document_type emptySummary [w6page]
      = ⟨"unknown", 0, ["No strong signals detected"]⟩ :=
  claim6_theorem emptySummary [w6page] (by decide) (by decide) (by decide)
    (by decide) (by decide)

/-- Claim C7: the classifier picks the category attaining the maximal
score, and among categories attaining it the one earliest in the fixed
table order (`catOrder`, the dict insertion order). -/
theorem claim7_theorem (s : DocumentSummary) (a : List PageRecord) :
    best_type s a ∈ catOrder
    ∧ (∀ c ∈ catOrder, scoreOf s a c ≤ scoreOf s a (best_type s a))
    ∧ (∀ c ∈ catOrder, scoreOf s a (best_type s a) ≤ scoreOf s a c →
        catOrder.indexOf (best_type s a) ≤ catOrder.indexOf c) := by
  have key : (best_type s a ∈ catOrder)
      ∧ (scoreOf s a DocCat.application_form ≤ scoreOf s a (best_type s a)
        ∧ scoreOf s a DocCat.invoice_or_payment ≤ scoreOf s a (best_type s a)
        ∧ scoreOf s a DocCat.government_notice ≤ scoreOf s a (best_type s a)
        ∧ scoreOf s a DocCat.identity_document ≤ scoreOf s a (best_type s a)
        ∧ scoreOf s a DocCat.educational_record ≤ scoreOf s a (best_type s a))
      ∧ ((scoreOf s a (best_type s a) ≤ scoreOf s a DocCat.application_form →
            catOrder.indexOf (best_type s a) ≤ catOrder.indexOf DocCat.application_form)
        ∧ (scoreOf s a (best_type s a) ≤ scoreOf s a DocCat.invoice_or_payment →
            catOrder.indexOf (best_type s a) ≤ catOrder.indexOf DocCat.invoice_or_payment)
        ∧ (scoreOf s a (best_type s a) ≤ scoreOf s a DocCat.government_notice →
            catOrder.indexOf (best_type s a) ≤ catOrder.indexOf DocCat.government_notice)
        ∧ (scoreOf s a (best_type s a) ≤ scoreOf s a DocCat.identity_document →
            catOrder.indexOf (best_type s a) ≤ catOrder.indexOf DocCat.identity_document)
        ∧ (scoreOf s a (best_type s a) ≤ scoreOf s a DocCat.educational_record →
            catOrder.indexOf (best_type s a) ≤ catOrder.indexOf DocCat.educational_record)) := by
    unfold best_type pickBest
    simp only [List.foldl_cons, List.foldl_nil]
    split_ifs <;>
      refine ⟨by decide, ⟨?_, ?_, ?_, ?_, ?_⟩, ⟨?_, ?_, ?_, ?_, ?_⟩⟩ <;>
      first
        | omega
        | (intro hle; decide)
  obtain ⟨hmem, ⟨p1, p2, p3, p4, p5⟩, q1, q2, q3, q4, q5⟩ := key
  refine ⟨hmem, ?_, ?_⟩
  · intro c hc
    simp only [catOrder, List.mem_cons, List.not_mem_nil, or_false] at hc
    rcases hc with rfl | rfl | rfl | rfl | rfl
    exacts [p1, p2, p3, p4, p5]
  · intro c hc hle
    simp only [catOrder, List.mem_cons, List.not_mem_nil, or_false] at hc
    rcases hc with rfl | rfl | rfl | rfl | rfl
    exacts [q1 hle, q2 hle, q3 hle, q4 hle, q5 hle]

/-- Witness for claim C7 at a concrete input: the winner's score dominates,
and a tying category cannot precede the winner in table order. -/
theorem claim7_witness :
    scoreOf (summarize_analysis c5pages) c5pages DocCat.government_notice
      ≤ scoreOf (summarize_analysis c5pages) c5pages
          (best_type (summarize_analysis c5pages) c5pages)
    ∧ catOrder.indexOf (best_type (summarize_analysis c5pages) c5pages)
        ≤ catOrder.indexOf DocCat.invoice_or_payment :=
  ⟨(claim7_theorem (summarize_analysis c5pages) c5pages).2.1
      DocCat.government_notice (by decide),
   (claim7_theorem (summarize_analysis c5pages) c5pages).2.2
      DocCat.invoice_or_payment (by decide) (by decide)⟩

/-- Claim C10: for any summary with at least one page scanned (and any page
list), the overall confidence lies between 0.35 and 1.0 inclusive: each of
the four additive tier contributions has a positive minimum
(0.1 + 0.1 + 0.1 + 0.05 = 0.35) and the maxima sum to exactly 1.0. -/
theorem claim10_theorem (s : DocumentSummary) (a : List PageRecord)
    (_h : 1 ≤ s.pages_scanned) :
    0.35 ≤ (assess_document_quality s a).overall_confidence
    ∧ (assess_document_quality s a).overall_confidence ≤ 1 := by
  have bounds : ∀ x1 x2 x3 x4 : ℚ,
      (x1 = 0.4 ∨ x1 = 0.25 ∨ x1 = 0.1) →
      (x2 = 0.3 ∨ x2 = 0.2 ∨ x2 = 0.1) →
      (x3 = 0.2 ∨ x3 = 0.1) →
      (x4 = 0.1 ∨ x4 = 0.05) →
      0.35 ≤ round2 (min (x1 + x2 + x3 + x4) 1)
        ∧ round2 (min (x1 + x2 + x3 + x4) 1) ≤ 1 := by
    rintro x1 x2 x3 x4 (rfl | rfl | rfl) (rfl | rfl | rfl) (rfl | rfl) (rfl | rfl) <;>
      exact ⟨by with_unfolding_all decide, by with_unfolding_all decide⟩
  refine bounds _ _ _ _ ?_ ?_ ?_ ?_ <;> split_ifs <;> simp

/-- Witness for claim C10 at a concrete one-page summary. -/
theorem claim10_witness :
    0.35 ≤ (assess_document_quality oneSummary []).overall_confidence
    ∧ (assess_document_quality oneSummary []).overall_confidence ≤ 1 :=
  claim10_theorem oneSummary [] (by decide)

/-- Folding the join step over any list only extends the accumulator on the
right. -/
theorem strJoin_foldl_extends (sep : String) :
    ∀ (l : List String) (a : String),
      ∃ r, l.foldl (fun acc y => acc ++ sep ++ y) a = a ++ r
  | [], a => ⟨"", (String.append_empty a).symm⟩
  | y :: ys, a => by
    obtain ⟨r, hr⟩ := strJoin_foldl_extends sep ys (a ++ sep ++ y)
    exact ⟨sep ++ y ++ r, by rw [List.foldl_cons, hr]; simp [String.append_assoc]⟩

/-- Claim C4, amended: the narrative always begins with the unconditional
first chunk (page count and text-layer pages, the latter rendered even when
empty); the remaining categories contribute one sentence each only when
populated, so with all of them empty the output is exactly the first
chunk. -/
theorem claim4_theorem (s : DocumentSummary) :
    (∃ r, generate_paragraph_summary s = firstChunk s ++ r)
    ∧ (s.ocr_success_pages = [] → s.unique_application_like_numbers = [] →
       s.unique_dates = [] → s.unique_times = [] → s.unique_ip_addresses = [] →
       s.unique_uppercase_phrases = [] →
       generate_paragraph_summary s = firstChunk s) := by
  constructor
  · unfold generate_paragraph_summary linesOf strJoin
    exact strJoin_foldl_extends " " _ (firstChunk s)
  · intro h1 h2 h3 h4 h5 h6
    unfold generate_paragraph_summary linesOf
    simp [h1, h2, h3, h4, h5, h6, strJoin]

/-- Witness for claim C4 at a concrete summary with a nonempty text-layer
list and no other populated category. -/
theorem claim4_witness :
    generate_paragraph_summary w4summary = firstChunk w4summary :=
  (claim4_theorem w4summary).2 rfl rfl rfl rfl rfl rfl

/-- Claim C5, amended: the classifier appends one reason string per signal
hit with no de-duplication, so for `n ≥ 1` pages each containing "Payment"
(and a summary with no number or uppercase-phrase signals) the winning
category is `invoice_or_payment` and the reasoning list is exactly `n`
copies of the same reason string. -/
theorem claim5_theorem (n : Nat) (s : DocumentSummary) (h : 1 ≤ n)
    (hA : s.unique_application_like_numbers = [])
    (hU : s.unique_uppercase_phrases = []) :
    (detect_document_type s (List.replicate n payPage)).document_type
      = "invoice_or_payment"
    ∧ (detect_document_type s (List.replicate n payPage)).reasoning
      = List.replicate n "Payment-related keywords found" := by
  have hpay : invoiceHit payPage = true := by decide
  have hedu : eduHit payPage = false := by decide
  have hid : idHit payPage = false := by decide
  have hpos : 0 < 2 * n := by omega
  have hne : ¬ (2 * n = 0) := by omega
  simp [detect_document_type, best_type, pickBest, scoreOf, reasonsOf, catName,
        hA, hU, hpay, hedu, hid, List.countP_replicate, List.filter_replicate,
        List.map_replicate, List.foldl_cons, List.foldl_nil, hpos, hne]

/-- Witness for claim C5, amended, at `n = 2`. -/
theorem claim5_witness :
    (detect_document_type emptySummary (List.replicate 2 payPage)).document_type
      = "invoice_or_payment"
    ∧ (detect_document_type emptySummary (List.replicate 2 payPage)).reasoning
      = List.replicate 2 "Payment-related keywords found" :=
  claim5_theorem 2 emptySummary (by decide) rfl rfl

/-- Every prefix lying inside the `takeWhile` run satisfies the predicate. -/
theorem take_all_of_takeWhile (p : Char → Bool) :
    ∀ (l : List Char) (n : Nat), n ≤ (l.takeWhile p).length → (l.take n).all p = true := by
  intro l
  induction l with
  | nil =>
    intro n hn
    simp only [List.takeWhile_nil, List.length_nil, Nat.le_zero] at hn
    subst hn
    simp
  | cons x xs ih =>
    intro n hn
    cases hx : p x with
    | true =>
      cases n with
      | zero => simp
      | succ m =>
        rw [List.take_succ_cons, List.all_cons, hx, Bool.true_and]
        rw [List.takeWhile_cons, if_pos hx, List.length_cons] at hn
        exact ih m (Nat.le_of_succ_le_succ hn)
    | false =>
      rw [List.takeWhile_cons, if_neg (by simp [hx]), List.length_nil] at hn
      rw [Nat.le_zero] at hn
      subst hn
      simp

/-- When the text has no 10-digit window, the application-number step never
fires. -/
theorem appStep_none {c : Char} {rest : List Char}
    (h : hasDigitRun10 (c :: rest) = false) (prevW : Bool) :
    appStep prevW c rest = none := by
  unfold appStep
  split_ifs with hc
  · exfalso
    obtain ⟨-, hdig, hlen, -⟩ := hc
    have hlen9 : 9 ≤ (rest.takeWhile Char.isDigit).length := by omega
    have hlenrest : 9 ≤ rest.length :=
      le_trans hlen9 (List.takeWhile_prefix _).length_le
    have hall : ((c :: rest).take 10).all Char.isDigit = true := by
      have h9 := take_all_of_takeWhile Char.isDigit rest 9 hlen9
      rw [List.take_cons (by omega)]
      show ((c :: rest.take 9).all Char.isDigit) = true
      rw [List.all_cons, hdig, Bool.true_and]
      exact h9
    have hlen10 : ((c :: rest).take 10).length = 10 := by
      rw [List.length_take, List.length_cons]
      omega
    have htrue : hasDigitRun10 (c :: rest) = true := by
      unfold hasDigitRun10
      simp only [List.tails_cons, List.any_cons]
      rw [hlen10, hall]
      simp
    rw [htrue] at h
    exact Bool.noConfusion h
  · rfl

/-- No 10-digit window in a list means none in its tail. -/
theorem hasRun_tail {c : Char} {rest : List Char}
    (h : hasDigitRun10 (c :: rest) = false) : hasDigitRun10 rest = false := by
  unfold hasDigitRun10 at h ⊢
  rw [List.tails_cons, List.any_cons] at h
  simp only [Bool.or_eq_false_iff] at h
  exact h.2

/-- With no 10-digit window the application-number scan yields nothing. -/
theorem scanAux_app_nil :
    ∀ (fuel : Nat) (prevW : Bool) (l : List Char),
      hasDigitRun10 l = false → scanAux appStep fuel prevW l = []
  | 0, _, _, _ => rfl
  | _ + 1, _, [], _ => rfl
  | fuel + 1, prevW, c :: rest, h => by
    have hstep := appStep_none h prevW
    simp only [scanAux, hstep]
    exact scanAux_app_nil fuel (isWordChar c) rest (hasRun_tail h)

/-- Every match emitted by the application-number scan is a run of 10 or
more digits. -/
theorem scanAux_app_sound :
    ∀ (fuel : Nat) (prevW : Bool) (l : List Char) (r : List Char),
      r ∈ scanAux appStep fuel prevW l → 10 ≤ r.length ∧ r.all Char.isDigit = true
  | 0, _, _, r => by intro hr; simp [scanAux] at hr
  | _ + 1, _, [], r => by intro hr; simp [scanAux] at hr
  | fuel + 1, prevW, c :: rest, r => by
    intro hr
    cases hstep : appStep prevW c rest with
    | none =>
      simp only [scanAux, hstep] at hr
      exact scanAux_app_sound fuel (isWordChar c) rest r hr
    | some mk =>
      obtain ⟨m, k⟩ := mk
      simp only [scanAux, hstep, List.mem_cons] at hr
      rcases hr with rfl | hr
      · unfold appStep at hstep
        split_ifs at hstep with hc
        · obtain ⟨-, hdig, hlen, -⟩ := hc
          simp only [Option.some.injEq, Prod.mk.injEq] at hstep
          obtain ⟨hm, -⟩ := hstep
          rw [← hm]
          constructor
          · rw [List.length_cons]
            omega
          · rw [List.all_cons, hdig, Bool.true_and, List.all_eq_true]
            intro x hx
            exact List.mem_takeWhile_imp hx
      · exact scanAux_app_sound fuel (lastWordChar m) (rest.drop k) r hr

/-- Claim C3, amended: every extracted application number is a string of 10
or more consecutive digits, and for every text with no window of 10
consecutive digits the field is empty; maximal runs adjacent to a word
character are excluded by the regex word boundaries (see the
counterexample), so the field is not always the full list of maximal
runs. -/
theorem claim3_theorem (t : String) :
    (∀ r ∈ (analyze_text t).application_numbers,
        10 ≤ r.length ∧ r.toList.all Char.isDigit = true)
    ∧ (hasDigitRun10 t.toList = false → (analyze_text t).application_numbers = []) := by
  constructor
  · intro r hr
    simp only [analyze_text, pyFindall, List.mem_map] at hr
    obtain ⟨m, hm, rfl⟩ := hr
    have h := scanAux_app_sound _ _ _ _ hm
    exact ⟨h.1, h.2⟩
  · intro h
    show List.map String.mk (scanAux appStep t.toList.length false t.toList) = []
    rw [scanAux_app_nil _ _ _ h]
    rfl

/-- Witness for claim C3, amended: a matched number is a 10-digit string,
and a digit-free text extracts nothing. -/
theorem claim3_witness :
    (10 ≤ ("1234567890" : String).length
      ∧ ("1234567890" : String).toList.all Char.isDigit = true)
    ∧ (analyze_text "no long digits here").application_numbers = [] :=
  ⟨(claim3_theorem ("ref 1234567890 end")).1 ("1234567890") (by decide),
   (claim3_theorem ("no long digits here")).2 (by decide)⟩
